import Mathlib

/- Verification of the Amtrak GTFS schedule-fixing pipeline.

The pipeline ingests the seven GTFS tables (agencies, routes, trips,
stop_times, stops, shapes, calendars), runs anomaly detectors (broken
shape geometry, midnight-crossing rail departures in non-Eastern
timezones), and emits corrected tables: agencies and routes on a fixed
removal list are dropped together with their trips and stop_times,
Shore Line East routes are rebranded, two stops receive coordinate
overrides, and trips with selected short names receive synthesized
calendars.

Modelling conventions:
- geographic coordinates (f64 in the source) are modelled as rationals,
  which makes the fixed 0.1-degree jump comparison exact and decidable;
- panics in the source (unwrap on a missing value, indexing an empty
  vector, the unreachable branch of the timezone match) are modelled as
  Except errors, so the pipeline is a total function into Except;
- the id-keyed hash maps the source builds from the tables are modelled
  as first-match list lookups; the two agree whenever ids are unique,
  which is the GTFS data-model invariant assumed (as a Nodup hypothesis)
  by the theorems whose truth depends on which record an id resolves to;
- the IANA timezone registry parsed by chrono_tz is modelled by a finite
  inductive of the zones relevant to the pipeline.
-/

structure RGB8 where
  r : Nat
  g : Nat
  b : Nat
deriving DecidableEq, Repr

inductive RouteType
  | Tramway
  | Subway
  | Rail
  | Bus
  | Ferry
  | CableCar
  | Gondola
  | Funicular
  | Coach
  | Air
  | Taxi
deriving DecidableEq, Repr

structure CalDate where
  year : Nat
  month : Nat
  day : Nat
deriving DecidableEq, Repr

structure Agency where
  id : Option String
  name : String
deriving DecidableEq, Repr

structure Route where
  id : String
  agency_id : Option String
  short_name : Option String
  long_name : Option String
  route_type : RouteType
  color : Option RGB8
deriving DecidableEq, Repr

structure Calendar where
  id : String
  monday : Bool
  tuesday : Bool
  wednesday : Bool
  thursday : Bool
  friday : Bool
  saturday : Bool
  sunday : Bool
  start_date : CalDate
  end_date : CalDate
deriving DecidableEq, Repr

structure Trip where
  id : String
  service_id : String
  route_id : String
  shape_id : Option String
  trip_short_name : Option String
  trip_headsign : Option String
deriving DecidableEq, Repr

structure StopTime where
  trip_id : String
  stop_sequence : Nat
  stop_id : String
  departure_time : Option Nat
deriving DecidableEq, Repr

structure Stop where
  id : String
  name : Option String
  latitude : Option ℚ
  longitude : Option ℚ
  timezone : Option String
deriving DecidableEq, Repr

structure ShapePoint where
  latitude : ℚ
  longitude : ℚ
deriving DecidableEq, Repr

/-- The in-memory feed: the seven tables, as materialized by the loader. -/
structure Feed where
  agencies : List Agency
  routes : List Route
  trips : List Trip
  stop_times : List StopTime
  stops : List Stop
  calendars : List Calendar
  shapes : List (String × List ShapePoint)
deriving DecidableEq, Repr

/-- The emitted tables (shapes are not re-emitted). -/
structure PipelineOutput where
  trips : List Trip
  agencies : List Agency
  stops : List Stop
  stop_times : List StopTime
  routes : List Route
  calendars : List Calendar
deriving DecidableEq, Repr

def TRIP_SHORT_NAMES_WITH_CALENDAR_FIXES : List String := ["2", "343", "422"]

def AGENCY_NAMES_TO_REMOVE : List String := ["MARC", "Via Rail Canada"]

def ROUTE_LONG_NAMES_TO_REMOVE : List String := ["Capitol Corridor"]

def SLE_AGENCY_NAME : String := "Shore Line East"

def SLE_NEW_SHORT_NAME : String := "SLE"

def SLE_NEW_LONG_NAME : String := "Shore Line East"

def SLE_NEW_COLOR : RGB8 := { r := 0xEA, g := 0x0D, b := 0x2A }

def LBO_STOP_ID : String := "LBO"

def LBO_STOP_NAME : String := "Los Baños Memorial Hospital"

def LBO_LAT : ℚ := mkRat 37064091 1000000

def LBO_LON : ℚ := mkRat (-120861860) 1000000

def EWR_STOP_ID : String := "EWR"

def EWR_LAT : ℚ := mkRat 40704444 1000000

def EWR_LON : ℚ := mkRat (-74190556) 1000000

/-- Calendar synthesis for trips whose upstream feed assigns the wrong
service day: deterministic id, per-short-name day flags, start and end
dates copied from the original calendar, and None outside the lookup
table. -/
def make_calendar_for_trip_short_name (trip_id trip_short_name : String)
    (calendar : Calendar) : Option Calendar :=
  let id := "catenary-" ++ trip_short_name ++ "-" ++ trip_id
  if trip_short_name = "2" then
    some { id := id, monday := true, tuesday := false, wednesday := false,
           thursday := true, friday := false, saturday := true, sunday := false,
           start_date := calendar.start_date, end_date := calendar.end_date }
  else if trip_short_name = "343" then
    some { id := id, monday := false, tuesday := false, wednesday := false,
           thursday := false, friday := false, saturday := true, sunday := false,
           start_date := calendar.start_date, end_date := calendar.end_date }
  else if trip_short_name = "422" then
    some { id := id, monday := true, tuesday := false, wednesday := false,
           thursday := true, friday := false, saturday := true, sunday := false,
           start_date := calendar.start_date, end_date := calendar.end_date }
  else
    none


def calendarEx : Calendar :=
  { id := "C1", monday := false, tuesday := true, wednesday := false,
    thursday := false, friday := true, saturday := false, sunday := true,
    start_date := { year := 2024, month := 1, day := 1 },
    end_date := { year := 2024, month := 12, day := 31 } }

/- ----------------------------------------------------------------
Detectors and table lookups.
---------------------------------------------------------------- -/

/-- The finite model of the timezone registry: the reference zone, the
three zones with a grace-hour entry, and representative zones outside
the enumerated set. -/
inductive Tz
  | America__New_York
  | America__Chicago
  | America__Denver
  | America__Los_Angeles
  | America__Phoenix
  | America__Toronto
  | America__Halifax
deriving DecidableEq, Repr

def Tz.fromStr (s : String) : Option Tz :=
  if s = "America/New_York" then some Tz.America__New_York
  else if s = "America/Chicago" then some Tz.America__Chicago
  else if s = "America/Denver" then some Tz.America__Denver
  else if s = "America/Los_Angeles" then some Tz.America__Los_Angeles
  else if s = "America/Phoenix" then some Tz.America__Phoenix
  else if s = "America/Toronto" then some Tz.America__Toronto
  else if s = "America/Halifax" then some Tz.America__Halifax
  else none

/-- Errors of the run.  Each corresponds to a panic site in the source
(unwrap of a missing value, indexing stop_times[0] of an empty vector,
the unreachable arm of the timezone match, a timezone string chrono
fails to parse). -/
inductive Err
  | missingRoute (route_id : String)
  | missingFirstStopTime (trip_id : String)
  | missingDepartureTime (trip_id : String)
  | missingStop (stop_id : String)
  | missingTimezone (stop_id : String)
  | invalidTimezone (tz : String)
  | unsupportedTimezone (tz : Tz)
  | missingLogField (trip_id : String)
  | missingCalendar (service_id : String)
deriving DecidableEq, Repr

def findRoute (routes : List Route) (rid : String) : Option Route :=
  routes.find? (fun r => r.id == rid)

def findStop (stops : List Stop) (sid : String) : Option Stop :=
  stops.find? (fun s => s.id == sid)

def findCalendar (cals : List Calendar) (cid : String) : Option Calendar :=
  cals.find? (fun c => c.id == cid)

/-- The agency_id-to-name map. -/
def agencyName (agencies : List Agency) (aid : String) : Option String :=
  (agencies.find? (fun a => a.id == some aid)).map (fun a => a.name)

def threshold_degree_broken : ℚ := mkRat 1 10

/-- Exact rational subtraction (kernel-computable, unlike the library's
irreducible subtraction), modelling the source's f64 subtraction. -/
def ratSub (x y : ℚ) : ℚ :=
  mkRat (x.num * (y.den : Int) - y.num * (x.den : Int)) (x.den * y.den)

/-- Absolute value, modelling the source's f64 abs. -/
def ratAbs (x : ℚ) : ℚ :=
  mkRat (Int.natAbs x.num) x.den

/-- One jump of the shape walk: adjacent points more than 0.1 degrees
apart in longitude or latitude. -/
def jumpTooBig (p q : ShapePoint) : Bool :=
  decide (ratAbs (ratSub p.longitude q.longitude) > threshold_degree_broken) ||
  decide (ratAbs (ratSub p.latitude q.latitude) > threshold_degree_broken)

/-- Walk consecutive point pairs of a shape in sequence order. -/
def hasBigJump (pts : List ShapePoint) : Bool :=
  (pts.zip pts.tail).any (fun pq => jumpTooBig pq.1 pq.2)

/-- Shape ids flagged by the geometry detector. -/
def brokenShapeIds (shapes : List (String × List ShapePoint)) : List String :=
  shapes.filterMap (fun s => if hasBigJump s.2 then some s.1 else none)

/-- Route ids whose shapes are removed wholesale (known-bad long names). -/
def routeIdsToRemoveShapesFrom (routes : List Route) : List String :=
  routes.filterMap (fun r =>
    match r.long_name with
    | some ln => if ln = "California Zephyr" || ln = "Floridian" then some r.id else none
    | none => none)

/-- Ids of agencies whose name is on the removal list; agencies without
an id contribute nothing. -/
def removeAgencyIds (agencies : List Agency) : List String :=
  agencies.filterMap (fun a =>
    if a.name ∈ AGENCY_NAMES_TO_REMOVE then a.id else none)

def routeRemoveByLongName (r : Route) : Option String :=
  match r.long_name with
  | some ln => if ln ∈ ROUTE_LONG_NAMES_TO_REMOVE then some r.id else none
  | none => none

/-- One iteration of the route classification loop: the first component
is the contribution to route_ids_to_remove, the second the contribution
to sle_route_ids.  A route removed through its agency skips the rest of
the iteration. -/
def routeClassify (remAg : List String) (agencies : List Agency) (r : Route) :
    Option String × Option String :=
  match r.agency_id with
  | some aid =>
    if aid ∈ remAg then (some r.id, none)
    else (routeRemoveByLongName r,
          if agencyName agencies aid = some SLE_AGENCY_NAME then some r.id else none)
  | none => (routeRemoveByLongName r, none)

def routeIdsToRemove (remAg : List String) (agencies : List Agency)
    (routes : List Route) : List String :=
  routes.filterMap (fun r => (routeClassify remAg agencies r).1)

def sleRouteIds (remAg : List String) (agencies : List Agency)
    (routes : List Route) : List String :=
  routes.filterMap (fun r => (routeClassify remAg agencies r).2)

/-- Stable insertion by stop_sequence, used to model the sorted
stop_times vector the structured loader attaches to each trip. -/
def insertBySeq (st : StopTime) : List StopTime → List StopTime
  | [] => [st]
  | x :: xs =>
    if st.stop_sequence < x.stop_sequence then st :: x :: xs
    else x :: insertBySeq st xs

def sortBySeq (l : List StopTime) : List StopTime :=
  l.foldr insertBySeq []

/-- The stop_times of one trip, in stop_sequence order. -/
def tripStopTimes (stop_times : List StopTime) (trip_id : String) : List StopTime :=
  sortBySeq (stop_times.filter (fun st => st.trip_id == trip_id))

def firstStopTime (l : List StopTime) : Option StopTime :=
  l.head?

/-- The zone-specific grace-hour table; none is the unreachable arm of
the source's match. -/
def graceHours : Tz → Option Nat
  | Tz.America__Chicago => some 1
  | Tz.America__Denver => some 2
  | Tz.America__Los_Angeles => some 3
  | _ => none

/-- The midnight-crossing detector for one trip, in the source's
evaluation order.  Flagged trips are only logged, but logging unwraps
the trip's short name, the route's long name and the headsign. -/
def checkTripMidnight (routes : List Route) (stops : List Stop)
    (stop_times : List StopTime) (trip : Trip) : Except Err Unit :=
  match findRoute routes trip.route_id with
  | none => Except.error (Err.missingRoute trip.route_id)
  | some route =>
    if route.route_type = RouteType.Rail then
      match firstStopTime (tripStopTimes stop_times trip.id) with
      | none => Except.error (Err.missingFirstStopTime trip.id)
      | some st0 =>
        match st0.departure_time with
        | none => Except.error (Err.missingDepartureTime trip.id)
        | some dep =>
          match findStop stops st0.stop_id with
          | none => Except.error (Err.missingStop st0.stop_id)
          | some stop =>
            match stop.timezone with
            | none => Except.error (Err.missingTimezone st0.stop_id)
            | some tzName =>
              match Tz.fromStr tzName with
              | none => Except.error (Err.invalidTimezone tzName)
              | some tz =>
                if tz = Tz.America__New_York then Except.ok ()
                else
                  match graceHours tz with
                  | none => Except.error (Err.unsupportedTimezone tz)
                  | some hr =>
                    if dep ≤ hr * 3600 then
                      match trip.trip_short_name, route.long_name, trip.trip_headsign with
                      | some _, some _, some _ => Except.ok ()
                      | _, _, _ => Except.error (Err.missingLogField trip.id)
                    else Except.ok ()
    else Except.ok ()

def midnightCheckList (routes : List Route) (stops : List Stop)
    (stop_times : List StopTime) : List Trip → Except Err Unit
  | [] => Except.ok ()
  | t :: ts =>
    match checkTripMidnight routes stops stop_times t with
    | Except.error e => Except.error e
    | Except.ok _ => midnightCheckList routes stops stop_times ts

/- ----------------------------------------------------------------
The trip pass and the other table passes.
---------------------------------------------------------------- -/

/-- Shape detachment: blanket removal by route, then the broken-shape
check on the possibly already cleared reference. -/
def applyShapeFixes (ridsNoShapes broken : List String) (trip0 : Trip) : Trip :=
  let trip1 :=
    if trip0.route_id ∈ ridsNoShapes then { trip0 with shape_id := none }
    else trip0
  match trip1.shape_id with
  | some sid => if sid ∈ broken then { trip1 with shape_id := none } else trip1
  | none => trip1

/-- Calendar synthesis inside the trip pass: on a hit, the trip is
re-pointed at the new calendar and the new calendar is pushed. -/
def applyCalFix (calendar : Calendar) (trip : Trip) : Trip × List Calendar :=
  match trip.trip_short_name with
  | some sn =>
    if sn ∈ TRIP_SHORT_NAMES_WITH_CALENDAR_FIXES then
      match make_calendar_for_trip_short_name trip.id sn calendar with
      | some nc => ({ trip with service_id := nc.id }, [nc])
      | none => (trip, [])
    else (trip, [])
  | none => (trip, [])

def shortNameStartsWith9 : Option String → Bool
  | some sn => sn.startsWith "9"
  | none => false

/-- One iteration of the trip pass: shape detachment, calendar lookup
(unwrap), calendar synthesis, then the inclusion decision.  Returns the
emitted trip (if any) and the calendars pushed. -/
def processTrip (origCals : List Calendar) (ridsNoShapes broken remRoutes sle : List String)
    (trip0 : Trip) : Except Err (Option Trip × List Calendar) :=
  match findCalendar origCals (applyShapeFixes ridsNoShapes broken trip0).service_id with
  | none => Except.error (Err.missingCalendar (applyShapeFixes ridsNoShapes broken trip0).service_id)
  | some calendar =>
    if (applyCalFix calendar (applyShapeFixes ridsNoShapes broken trip0)).1.route_id ∈ remRoutes then
      Except.ok (none, (applyCalFix calendar (applyShapeFixes ridsNoShapes broken trip0)).2)
    else if (applyCalFix calendar (applyShapeFixes ridsNoShapes broken trip0)).1.route_id ∈ sle ∧
        shortNameStartsWith9 (applyCalFix calendar (applyShapeFixes ridsNoShapes broken trip0)).1.trip_short_name = true then
      Except.ok (none, (applyCalFix calendar (applyShapeFixes ridsNoShapes broken trip0)).2)
    else
      Except.ok (some (applyCalFix calendar (applyShapeFixes ridsNoShapes broken trip0)).1,
                 (applyCalFix calendar (applyShapeFixes ridsNoShapes broken trip0)).2)

/-- The trip pass over the whole table: kept trips and pushed calendars
in table order. -/
def processTrips (origCals : List Calendar) (ridsNoShapes broken remRoutes sle : List String) :
    List Trip → Except Err (List Trip × List Calendar)
  | [] => Except.ok ([], [])
  | t :: ts =>
    match processTrip origCals ridsNoShapes broken remRoutes sle t with
    | Except.error e => Except.error e
    | Except.ok p =>
      match processTrips origCals ridsNoShapes broken remRoutes sle ts with
      | Except.error e => Except.error e
      | Except.ok q => Except.ok (p.1.toList ++ q.1, p.2 ++ q.2)

def agencyRemoved (remAg : List String) (a : Agency) : Bool :=
  match a.id with
  | some aid => decide (aid ∈ remAg)
  | none => false

def processAgencies (remAg : List String) (agencies : List Agency) : List Agency :=
  agencies.filter (fun a => !agencyRemoved remAg a)

/-- Coordinate override for the two fixed stops. -/
def fixStop (stop : Stop) : Stop :=
  let stop1 :=
    if stop.id = LBO_STOP_ID then
      { stop with name := some LBO_STOP_NAME, latitude := some LBO_LAT,
                  longitude := some LBO_LON }
    else stop
  if stop1.id = EWR_STOP_ID then
    { stop1 with latitude := some EWR_LAT, longitude := some EWR_LON }
  else stop1

def processStopTimes (keptIds : List String) (sts : List StopTime) : List StopTime :=
  sts.filter (fun st => decide (st.trip_id ∈ keptIds))

/-- The Shore Line East rebrand. -/
def fixRoute (sle : List String) (r : Route) : Route :=
  if r.id ∈ sle then
    { r with long_name := some SLE_NEW_LONG_NAME,
             short_name := some SLE_NEW_SHORT_NAME,
             color := some SLE_NEW_COLOR }
  else r

def processRoutes (remRoutes sle : List String) (routes : List Route) : List Route :=
  (routes.filter (fun r => decide (r.id ∉ remRoutes))).map (fixRoute sle)

/-- The whole pipeline: detectors, then the trip pass, then the
remaining single passes.  A panic site anywhere aborts the run. -/
def pipeline (feed : Feed) : Except Err PipelineOutput :=
  match midnightCheckList feed.routes feed.stops feed.stop_times feed.trips with
  | Except.error e => Except.error e
  | Except.ok _ =>
    match processTrips feed.calendars (routeIdsToRemoveShapesFrom feed.routes)
        (brokenShapeIds feed.shapes)
        (routeIdsToRemove (removeAgencyIds feed.agencies) feed.agencies feed.routes)
        (sleRouteIds (removeAgencyIds feed.agencies) feed.agencies feed.routes)
        feed.trips with
    | Except.error e => Except.error e
    | Except.ok p =>
      Except.ok
        { trips := p.1
          agencies := processAgencies (removeAgencyIds feed.agencies) feed.agencies
          stops := feed.stops.map fixStop
          stop_times := processStopTimes (p.1.map (fun t => t.id)) feed.stop_times
          routes := processRoutes
              (routeIdsToRemove (removeAgencyIds feed.agencies) feed.agencies feed.routes)
              (sleRouteIds (removeAgencyIds feed.agencies) feed.agencies feed.routes)
              feed.routes
          calendars := feed.calendars ++ p.2 }

/-- The net effect of shape detachment on a trip's shape reference. -/
def shapeResult (ridsNoShapes broken : List String) (t0 : Trip) : Option String :=
  if t0.route_id ∈ ridsNoShapes then none
  else
    match t0.shape_id with
    | some s => if s ∈ broken then none else some s
    | none => none

/-- Whether a trip's shape reference points at a geometrically broken
shape of the feed. -/
def referencesBrokenShape (shapes : List (String × List ShapePoint)) (t : Trip) : Bool :=
  match t.shape_id with
  | some sid => decide (sid ∈ brokenShapeIds shapes)
  | none => false

/- ----------------------------------------------------------------
Concrete feeds used to instantiate the theorems.
---------------------------------------------------------------- -/

def exFeedC1 : Feed :=
  { agencies := [{ id := some "A1", name := "Amtrak" }, { id := some "A2", name := "MARC" }]
    routes := [{ id := "R1", agency_id := some "A1", short_name := some "AC",
                 long_name := some "Acela", route_type := RouteType.Rail, color := none },
               { id := "R2", agency_id := some "A2", short_name := none,
                 long_name := some "Penn Line", route_type := RouteType.Rail, color := none }]
    trips := [{ id := "T1", service_id := "C1", route_id := "R1", shape_id := none,
                trip_short_name := some "2100", trip_headsign := some "Boston" },
              { id := "T2", service_id := "C1", route_id := "R2", shape_id := none,
                trip_short_name := some "400", trip_headsign := some "Perryville" }]
    stop_times := [{ trip_id := "T1", stop_sequence := 1, stop_id := "S1", departure_time := some 28800 },
                   { trip_id := "T2", stop_sequence := 1, stop_id := "S1", departure_time := some 30000 }]
    stops := [{ id := "S1", name := some "Union Station", latitude := some 1, longitude := some 2,
                timezone := some "America/New_York" }]
    calendars := [calendarEx]
    shapes := [] }

def exOutC1 : PipelineOutput :=
  { trips := [{ id := "T1", service_id := "C1", route_id := "R1", shape_id := none,
                trip_short_name := some "2100", trip_headsign := some "Boston" }]
    agencies := [{ id := some "A1", name := "Amtrak" }]
    stops := [{ id := "S1", name := some "Union Station", latitude := some 1, longitude := some 2,
                timezone := some "America/New_York" }]
    stop_times := [{ trip_id := "T1", stop_sequence := 1, stop_id := "S1", departure_time := some 28800 }]
    routes := [{ id := "R1", agency_id := some "A1", short_name := some "AC",
                 long_name := some "Acela", route_type := RouteType.Rail, color := none }]
    calendars := [calendarEx] }

def exTripC4 : Trip :=
  { id := "T1", service_id := "C1", route_id := "R1", shape_id := some "S1",
    trip_short_name := none, trip_headsign := none }

def exFeedC4 : Feed :=
  { agencies := []
    routes := [{ id := "R1", agency_id := none, short_name := none,
                 long_name := some "California Zephyr", route_type := RouteType.Bus, color := none }]
    trips := [exTripC4]
    stop_times := []
    stops := []
    calendars := [calendarEx]
    shapes := [("S1", [{ latitude := 0, longitude := 0 }])] }

def exOutTripC4 : Trip :=
  { id := "T1", service_id := "C1", route_id := "R1", shape_id := none,
    trip_short_name := none, trip_headsign := none }

def exOutC4 : PipelineOutput :=
  { trips := [exOutTripC4]
    agencies := []
    stops := []
    stop_times := []
    routes := [{ id := "R1", agency_id := none, short_name := none,
                 long_name := some "California Zephyr", route_type := RouteType.Bus, color := none }]
    calendars := [calendarEx] }

def exFeedC4W : Feed :=
  { agencies := []
    routes := [{ id := "R1", agency_id := none, short_name := none,
                 long_name := some "Lake Shore Limited", route_type := RouteType.Bus, color := none }]
    trips := [exTripC4]
    stop_times := []
    stops := []
    calendars := [calendarEx]
    shapes := [("S1", [{ latitude := 0, longitude := 0 }, { latitude := 1, longitude := 0 }])] }

def exOutC4W : PipelineOutput :=
  { trips := [exOutTripC4]
    agencies := []
    stops := []
    stop_times := []
    routes := [{ id := "R1", agency_id := none, short_name := none,
                 long_name := some "Lake Shore Limited", route_type := RouteType.Bus, color := none }]
    calendars := [calendarEx] }

/-- Claim C4 exactly as stated: a trip referencing a geometrically
broken shape is cleared, and no other trip's shape reference is
affected. -/
def C4_claim : Prop :=
  ∀ (feed : Feed) (out : PipelineOutput), pipeline feed = Except.ok out →
    (feed.trips.map (fun t => t.id)).Nodup →
    ∀ t0 ∈ feed.trips, ∀ t ∈ out.trips, t.id = t0.id →
      (referencesBrokenShape feed.shapes t0 = true → t.shape_id = none) ∧
      (referencesBrokenShape feed.shapes t0 = false → t.shape_id = t0.shape_id)

def exFeedC5A : Feed :=
  { agencies := [], routes := [], trips := [], stop_times := []
    stops := [{ id := "EWR", name := some "EWR parking garage P4", latitude := some 1,
                longitude := some 2, timezone := none }]
    calendars := [], shapes := [] }

def exOutC5A : PipelineOutput :=
  { trips := [], agencies := [], stop_times := [], routes := [], calendars := []
    stops := [{ id := "EWR", name := some "EWR parking garage P4", latitude := some EWR_LAT,
                longitude := some EWR_LON, timezone := none }] }

def exFeedC5B : Feed :=
  { agencies := [], routes := [], trips := [], stop_times := []
    stops := [{ id := "EWR", name := some "Newark Airport Rail Station", latitude := some 1,
                longitude := some 2, timezone := none }]
    calendars := [], shapes := [] }

def exOutC5B : PipelineOutput :=
  { trips := [], agencies := [], stop_times := [], routes := [], calendars := []
    stops := [{ id := "EWR", name := some "Newark Airport Rail Station", latitude := some EWR_LAT,
                longitude := some EWR_LON, timezone := none }] }

def exFeedC5W : Feed :=
  { agencies := [], routes := [], trips := [], stop_times := []
    stops := [{ id := "LBO", name := some "Random house in Flin Flon", latitude := some 54,
                longitude := some (-101), timezone := none },
              { id := "EWR", name := some "EWR parking garage P4", latitude := some 1,
                longitude := some 2, timezone := some "America/New_York" },
              { id := "NYP", name := some "New York Penn", latitude := some 40,
                longitude := some (-73), timezone := some "America/New_York" }]
    calendars := [], shapes := [] }

def exOutC5W : PipelineOutput :=
  { trips := [], agencies := [], stop_times := [], routes := [], calendars := []
    stops := [{ id := "LBO", name := some LBO_STOP_NAME, latitude := some LBO_LAT,
                longitude := some LBO_LON, timezone := none },
              { id := "EWR", name := some "EWR parking garage P4", latitude := some EWR_LAT,
                longitude := some EWR_LON, timezone := some "America/New_York" },
              { id := "NYP", name := some "New York Penn", latitude := some 40,
                longitude := some (-73), timezone := some "America/New_York" }] }

/-- Claim C5 exactly as stated: for the two overridden stop ids the
emitted stop's name, latitude and longitude equal fixed configured
values (existentially quantified constants independent of the input),
no other field of those stops changes, and every other stop is emitted
unchanged. -/
def C5_claim : Prop :=
  ∃ (nmL : String) (laL loL : ℚ) (nmE : String) (laE loE : ℚ),
    ∀ (feed : Feed) (out : PipelineOutput), pipeline feed = Except.ok out →
      out.stops.length = feed.stops.length ∧
      ∀ (i : Nat) (hi : i < feed.stops.length) (hi2 : i < out.stops.length),
        ((feed.stops[i]).id = LBO_STOP_ID →
          (out.stops[i]).name = some nmL ∧
          (out.stops[i]).latitude = some laL ∧
          (out.stops[i]).longitude = some loL ∧
          (out.stops[i]).id = (feed.stops[i]).id ∧
          (out.stops[i]).timezone = (feed.stops[i]).timezone) ∧
        ((feed.stops[i]).id = EWR_STOP_ID →
          (out.stops[i]).name = some nmE ∧
          (out.stops[i]).latitude = some laE ∧
          (out.stops[i]).longitude = some loE ∧
          (out.stops[i]).id = (feed.stops[i]).id ∧
          (out.stops[i]).timezone = (feed.stops[i]).timezone) ∧
        ((feed.stops[i]).id ≠ LBO_STOP_ID → (feed.stops[i]).id ≠ EWR_STOP_ID →
          out.stops[i] = feed.stops[i])

def exTripC6 : Trip :=
  { id := "T1", service_id := "C1", route_id := "R1", shape_id := none,
    trip_short_name := none, trip_headsign := none }

def exFeedC6 : Feed :=
  { agencies := []
    routes := [{ id := "R1", agency_id := none, short_name := none,
                 long_name := some "Thruway Bus", route_type := RouteType.Bus, color := none }]
    trips := [exTripC6]
    stop_times := [], stops := [], calendars := [calendarEx], shapes := [] }

def exOutC6 : PipelineOutput :=
  { trips := [exTripC6], agencies := [], stops := [], stop_times := []
    routes := [{ id := "R1", agency_id := none, short_name := none,
                 long_name := some "Thruway Bus", route_type := RouteType.Bus, color := none }]
    calendars := [calendarEx] }

def exRouteC6R : Route :=
  { id := "R1", agency_id := none, short_name := none,
    long_name := some "Empire Service", route_type := RouteType.Rail, color := none }

def exFeedC6R : Feed :=
  { agencies := []
    routes := [exRouteC6R]
    trips := [exTripC6]
    stop_times := [], stops := [], calendars := [calendarEx], shapes := [] }

/-- Claim C6 exactly as stated: any feed containing a trip owning zero
stop_times makes the run fail. -/
def C6_claim : Prop :=
  ∀ (feed : Feed), (feed.trips.map (fun t => t.id)).Nodup →
    (∃ t ∈ feed.trips, tripStopTimes feed.stop_times t.id = []) →
    ∃ e, pipeline feed = Except.error e

def exTripC7 : Trip :=
  { id := "T1", service_id := "C1", route_id := "R1", shape_id := none,
    trip_short_name := some "1", trip_headsign := some "Los Angeles" }

def exRouteC7 : Route :=
  { id := "R1", agency_id := none, short_name := none,
    long_name := some "Sunset Limited", route_type := RouteType.Rail, color := none }

def exStC7 : StopTime :=
  { trip_id := "T1", stop_sequence := 1, stop_id := "S1", departure_time := some 0 }

def exStopC7 : Stop :=
  { id := "S1", name := some "Maricopa", latitude := some 33, longitude := some (-112),
    timezone := some "America/Phoenix" }

def exFeedC7 : Feed :=
  { agencies := []
    routes := [exRouteC7]
    trips := [exTripC7]
    stop_times := [exStC7]
    stops := [exStopC7]
    calendars := [calendarEx]
    shapes := [] }

def exRouteC8 : Route :=
  { id := "R1", agency_id := some "SLE", short_name := some "475",
    long_name := some "Old Saybrook Line", route_type := RouteType.Rail, color := none }

def exRouteC8B : Route :=
  { id := "R2", agency_id := some "A1", short_name := some "NE",
    long_name := some "Northeast Regional", route_type := RouteType.Rail, color := none }

def exFeedC8 : Feed :=
  { agencies := [{ id := some "SLE", name := "Shore Line East" },
                 { id := some "A1", name := "Amtrak" }]
    routes := [exRouteC8, exRouteC8B]
    trips := [], stop_times := [], stops := [], calendars := [calendarEx], shapes := [] }

def exRouteC8Out : Route :=
  { id := "R1", agency_id := some "SLE", short_name := some SLE_NEW_SHORT_NAME,
    long_name := some SLE_NEW_LONG_NAME, route_type := RouteType.Rail,
    color := some SLE_NEW_COLOR }

def exOutC8 : PipelineOutput :=
  { trips := [], stops := [], stop_times := []
    agencies := [{ id := some "SLE", name := "Shore Line East" },
                 { id := some "A1", name := "Amtrak" }]
    routes := [exRouteC8Out, exRouteC8B]
    calendars := [calendarEx] }

def exTripC9 : Trip :=
  { id := "T9", service_id := "C1", route_id := "R1", shape_id := none,
    trip_short_name := some "2", trip_headsign := some "Nowhere" }

def exFeedC9 : Feed :=
  { agencies := [{ id := some "A1", name := "MARC" }]
    routes := [{ id := "R1", agency_id := some "A1", short_name := none,
                 long_name := some "Penn Line", route_type := RouteType.Bus, color := none }]
    trips := [exTripC9]
    stop_times := [], stops := [], calendars := [calendarEx], shapes := [] }

def exCalC9 : Calendar :=
  { id := "catenary-2-T9", monday := true, tuesday := false, wednesday := false,
    thursday := true, friday := false, saturday := true, sunday := false,
    start_date := { year := 2024, month := 1, day := 1 },
    end_date := { year := 2024, month := 12, day := 31 } }

def exOutC9 : PipelineOutput :=
  { trips := [], agencies := [], stops := [], stop_times := [], routes := []
    calendars := [calendarEx, exCalC9] }

def exAgC10 : Agency := { id := none, name := "Via Rail Canada" }

def exAgC10B : Agency := { id := some "A2", name := "Amtrak" }

def exTripC10 : Trip :=
  { id := "T1", service_id := "C1", route_id := "R1", shape_id := none,
    trip_short_name := some "63", trip_headsign := some "Toronto" }

def exFeedC10 : Feed :=
  { agencies := [exAgC10, exAgC10B]
    routes := [{ id := "R1", agency_id := some "A2", short_name := none,
                 long_name := some "Maple Leaf", route_type := RouteType.Bus, color := none }]
    trips := [exTripC10]
    stop_times := [{ trip_id := "T1", stop_sequence := 1, stop_id := "S1",
                     departure_time := some 26000 }]
    stops := []
    calendars := [calendarEx]
    shapes := [] }

def exOutC10 : PipelineOutput :=
  { trips := [exTripC10]
    agencies := [exAgC10, exAgC10B]
    stops := []
    stop_times := [{ trip_id := "T1", stop_sequence := 1, stop_id := "S1",
                     departure_time := some 26000 }]
    routes := [{ id := "R1", agency_id := some "A2", short_name := none,
                 long_name := some "Maple Leaf", route_type := RouteType.Bus, color := none }]
    calendars := [calendarEx] }

/- ----------------------------------------------------------------
Theorems.
---------------------------------------------------------------- -/

theorem findRoute_mem {routes : List Route} {rid : String} {r : Route}
    (h : findRoute routes rid = some r) : r ∈ routes ∧ r.id = rid := by
  unfold findRoute at h
  refine ⟨List.mem_of_find?_eq_some h, ?_⟩
  have h2 := List.find?_some h
  simpa using h2

theorem findCalendar_mem {cals : List Calendar} {cid : String} {c : Calendar}
    (h : findCalendar cals cid = some c) : c ∈ cals ∧ c.id = cid := by
  unfold findCalendar at h
  refine ⟨List.mem_of_find?_eq_some h, ?_⟩
  have h2 := List.find?_some h
  simpa using h2

theorem applyShapeFixes_eq (a b : List String) (t0 : Trip) :
    applyShapeFixes a b t0 = { t0 with shape_id := shapeResult a b t0 } := by
  unfold applyShapeFixes shapeResult
  by_cases h : t0.route_id ∈ a
  · simp [h]
  · simp only [h, if_false]
    cases hs : t0.shape_id with
    | none =>
      simp only [hs]
      rw [← hs]
    | some s =>
      by_cases hb : s ∈ b
      · simp [hs, hb]
      · simp only [hs, hb, if_false]
        rw [← hs]

theorem applyCalFix_fst_fields (cal : Calendar) (t : Trip) :
    (applyCalFix cal t).1.id = t.id ∧ (applyCalFix cal t).1.route_id = t.route_id ∧
    (applyCalFix cal t).1.shape_id = t.shape_id ∧
    (applyCalFix cal t).1.trip_short_name = t.trip_short_name := by
  unfold applyCalFix
  cases hsn : t.trip_short_name with
  | none => simp [hsn]
  | some sn =>
    by_cases hfix : sn ∈ TRIP_SHORT_NAMES_WITH_CALENDAR_FIXES
    · simp only [hfix, if_true]
      cases hmc : make_calendar_for_trip_short_name t.id sn cal with
      | none => simp [hsn]
      | some nc => simp [hsn]
    · simp [hfix, hsn]

theorem applyCalFix_service (cal : Calendar) (t : Trip) :
    ((applyCalFix cal t).1.service_id = t.service_id ∧ (applyCalFix cal t).2 = []) ∨
    (∃ nc, (applyCalFix cal t).2 = [nc] ∧ (applyCalFix cal t).1.service_id = nc.id) := by
  unfold applyCalFix
  cases hsn : t.trip_short_name with
  | none =>
    simp [hsn]
  | some sn =>
    by_cases hfix : sn ∈ TRIP_SHORT_NAMES_WITH_CALENDAR_FIXES
    · simp only [hfix, if_true]
      cases hmc : make_calendar_for_trip_short_name t.id sn cal with
      | none => exact Or.inl ⟨rfl, rfl⟩
      | some nc => exact Or.inr ⟨nc, rfl, rfl⟩
    · simp [hfix]

theorem applyCalFix_push (cal : Calendar) (t : Trip) (sn : String)
    (hsn : t.trip_short_name = some sn)
    (hfix : sn ∈ TRIP_SHORT_NAMES_WITH_CALENDAR_FIXES)
    (nc : Calendar) (hnc : make_calendar_for_trip_short_name t.id sn cal = some nc) :
    (applyCalFix cal t).2 = [nc] := by
  unfold applyCalFix
  simp [hsn, hfix, hnc]

theorem processStopTimes_mem {keptIds : List String} {sts : List StopTime} {st : StopTime}
    (h : st ∈ processStopTimes keptIds sts) : st ∈ sts ∧ st.trip_id ∈ keptIds := by
  unfold processStopTimes at h
  have h2 := List.mem_filter.mp h
  exact ⟨h2.1, by simpa using h2.2⟩

theorem processRoutes_mem {rem sle : List String} {routes : List Route} {r : Route} :
    r ∈ processRoutes rem sle routes ↔
      ∃ r0 ∈ routes, r0.id ∉ rem ∧ r = fixRoute sle r0 := by
  unfold processRoutes
  simp only [List.mem_map, List.mem_filter]
  constructor
  · rintro ⟨r0, ⟨hr0, hrem⟩, heq⟩
    exact ⟨r0, hr0, by simpa using hrem, heq.symm⟩
  · rintro ⟨r0, hr0, hrem, heq⟩
    exact ⟨r0, ⟨hr0, by simpa using hrem⟩, heq.symm⟩

theorem fixRoute_id (sle : List String) (r : Route) : (fixRoute sle r).id = r.id := by
  unfold fixRoute
  split <;> rfl

theorem fixRoute_agency (sle : List String) (r : Route) :
    (fixRoute sle r).agency_id = r.agency_id := by
  unfold fixRoute
  split <;> rfl

theorem fixRoute_sle {sle : List String} {r : Route} (h : r.id ∈ sle) :
    (fixRoute sle r).short_name = some SLE_NEW_SHORT_NAME ∧
    (fixRoute sle r).long_name = some SLE_NEW_LONG_NAME ∧
    (fixRoute sle r).color = some SLE_NEW_COLOR := by
  unfold fixRoute
  simp [h]

theorem fixRoute_not_sle {sle : List String} {r : Route} (h : r.id ∉ sle) :
    fixRoute sle r = r := by
  unfold fixRoute
  simp [h]

theorem processTrip_ok_some (o : List Calendar) (a b c d : List String) (t0 t : Trip)
    (cals : List Calendar)
    (h : processTrip o a b c d t0 = Except.ok (some t, cals)) :
    t.id = t0.id ∧ t.route_id = t0.route_id ∧ t.trip_short_name = t0.trip_short_name ∧
    t.shape_id = shapeResult a b t0 ∧ t.route_id ∉ c ∧
    ((∃ cc ∈ o, cc.id = t.service_id) ∨ (∃ nc ∈ cals, nc.id = t.service_id)) := by
  unfold processTrip at h
  split at h
  · simp at h
  · rename_i cal hf
    split at h
    · simp at h
    · split at h
      · simp at h
      · rename_i hrem hsle
        simp only [Except.ok.injEq, Prod.mk.injEq, Option.some.injEq] at h
        obtain ⟨ht, hcals⟩ := h
        obtain ⟨f1, f2, f3, f4⟩ := applyCalFix_fst_fields cal (applyShapeFixes a b t0)
        subst ht
        subst hcals
        refine ⟨?_, ?_, ?_, ?_, ?_, ?_⟩
        · rw [f1, applyShapeFixes_eq]
        · rw [f2, applyShapeFixes_eq]
        · rw [f4, applyShapeFixes_eq]
        · rw [f3, applyShapeFixes_eq]
        · exact hrem
        · rcases applyCalFix_service cal (applyShapeFixes a b t0) with ⟨hsvc, _⟩ | ⟨nc, hl, hsvc⟩
          · obtain ⟨hcmem, hcid⟩ := findCalendar_mem hf
            exact Or.inl ⟨cal, hcmem, hcid.trans hsvc.symm⟩
          · refine Or.inr ⟨nc, ?_, hsvc.symm⟩
            rw [hl]
            exact List.mem_singleton.mpr rfl

theorem processTrip_push (o : List Calendar) (a b c d : List String) (t0 : Trip)
    (ot : Option Trip) (cals : List Calendar)
    (h : processTrip o a b c d t0 = Except.ok (ot, cals))
    (sn : String) (hsn : t0.trip_short_name = some sn)
    (hfix : sn ∈ TRIP_SHORT_NAMES_WITH_CALENDAR_FIXES)
    (cal : Calendar) (hcal : findCalendar o t0.service_id = some cal)
    (nc : Calendar) (hnc : make_calendar_for_trip_short_name t0.id sn cal = some nc) :
    nc ∈ cals := by
  have hasf : (applyShapeFixes a b t0).service_id = t0.service_id := by
    rw [applyShapeFixes_eq]
  have hasn : (applyShapeFixes a b t0).trip_short_name = t0.trip_short_name := by
    rw [applyShapeFixes_eq]
  have haid : (applyShapeFixes a b t0).id = t0.id := by
    rw [applyShapeFixes_eq]
  unfold processTrip at h
  split at h
  · rename_i hf
    rw [hasf, hcal] at hf
    simp at hf
  · rename_i cal2 hf
    rw [hasf, hcal] at hf
    injection hf with hf
    subst hf
    have hpush := applyCalFix_push cal (applyShapeFixes a b t0) sn
      (by rw [hasn]; exact hsn) hfix nc (by rw [haid]; exact hnc)
    split at h
    · simp only [Except.ok.injEq, Prod.mk.injEq] at h
      rw [← h.2, hpush]
      exact List.mem_singleton.mpr rfl
    · split at h
      · simp only [Except.ok.injEq, Prod.mk.injEq] at h
        rw [← h.2, hpush]
        exact List.mem_singleton.mpr rfl
      · simp only [Except.ok.injEq, Prod.mk.injEq] at h
        rw [← h.2, hpush]
        exact List.mem_singleton.mpr rfl

theorem processTrips_sound (o : List Calendar) (a b c d : List String) :
    ∀ (ts : List Trip) (kept : List Trip) (ncals : List Calendar),
      processTrips o a b c d ts = Except.ok (kept, ncals) →
      ((∀ t ∈ kept, ∃ t0 ∈ ts, ∃ cals, processTrip o a b c d t0 = Except.ok (some t, cals) ∧
         ∀ x ∈ cals, x ∈ ncals) ∧
       (∀ t0 ∈ ts, ∃ ot cals, processTrip o a b c d t0 = Except.ok (ot, cals) ∧
         (∀ x ∈ cals, x ∈ ncals) ∧ ∀ t, ot = some t → t ∈ kept)) := by
  intro ts
  induction ts with
  | nil =>
    intro kept ncals h
    unfold processTrips at h
    simp only [Except.ok.injEq, Prod.mk.injEq] at h
    obtain ⟨h1, h2⟩ := h
    subst h1
    subst h2
    exact ⟨fun t ht => absurd ht (List.not_mem_nil t),
           fun t0 ht0 => absurd ht0 (List.not_mem_nil t0)⟩
  | cons x xs ih =>
    intro kept ncals h
    unfold processTrips at h
    split at h
    · simp at h
    · rename_i p hp
      split at h
      · simp at h
      · rename_i q hq
        simp only [Except.ok.injEq, Prod.mk.injEq] at h
        obtain ⟨h1, h2⟩ := h
        subst h1
        subst h2
        obtain ⟨ih1, ih2⟩ := ih q.1 q.2 (by rw [hq])
        constructor
        · intro t ht
          rcases List.mem_append.mp ht with htl | htr
          · cases hop : p.1 with
            | none =>
              rw [hop] at htl
              simp at htl
            | some t2 =>
              rw [hop] at htl
              simp only [Option.toList_some, List.mem_singleton] at htl
              subst htl
              refine ⟨x, List.mem_cons_self x xs, p.2, ?_, ?_⟩
              · rw [hp, ← hop]
              · intro y hy
                exact List.mem_append.mpr (Or.inl hy)
          · obtain ⟨t0, ht0, cals, hpt, hsub⟩ := ih1 t htr
            exact ⟨t0, List.mem_cons_of_mem x ht0, cals, hpt,
                   fun y hy => List.mem_append.mpr (Or.inr (hsub y hy))⟩
        · intro t0 ht0
          rcases List.mem_cons.mp ht0 with rfl | hmem
          · refine ⟨p.1, p.2, ?_, ?_, ?_⟩
            · rw [hp]
            · intro y hy
              exact List.mem_append.mpr (Or.inl hy)
            · intro t hop
              apply List.mem_append.mpr
              left
              rw [hop]
              simp
          · obtain ⟨ot, cals, hpt, hsub, hin⟩ := ih2 t0 hmem
            exact ⟨ot, cals, hpt,
                   fun y hy => List.mem_append.mpr (Or.inr (hsub y hy)),
                   fun t hot => List.mem_append.mpr (Or.inr (hin t hot))⟩

theorem midnightCheckList_ok_mem (routes : List Route) (stops : List Stop)
    (sts : List StopTime) :
    ∀ (ts : List Trip), midnightCheckList routes stops sts ts = Except.ok () →
      ∀ t ∈ ts, checkTripMidnight routes stops sts t = Except.ok () := by
  intro ts
  induction ts with
  | nil =>
    intro _ t ht
    exact absurd ht (List.not_mem_nil t)
  | cons x xs ih =>
    intro h t ht
    unfold midnightCheckList at h
    split at h
    · simp at h
    · rename_i u hu
      rcases List.mem_cons.mp ht with rfl | hmem
      · cases u
        exact hu
      · exact ih h t hmem

theorem midnightCheckList_error_of_mem (routes : List Route) (stops : List Stop)
    (sts : List StopTime) :
    ∀ (ts : List Trip) (t : Trip), t ∈ ts →
      ∀ e, checkTripMidnight routes stops sts t = Except.error e →
      ∃ e2, midnightCheckList routes stops sts ts = Except.error e2 := by
  intro ts
  induction ts with
  | nil =>
    intro t ht
    exact absurd ht (List.not_mem_nil t)
  | cons x xs ih =>
    intro t ht e he
    rcases List.mem_cons.mp ht with rfl | hmem
    · exact ⟨e, by unfold midnightCheckList; rw [he]⟩
    · cases hc : checkTripMidnight routes stops sts x with
      | error e2 => exact ⟨e2, by unfold midnightCheckList; rw [hc]⟩
      | ok u =>
        obtain ⟨e2, h2⟩ := ih t hmem e he
        refine ⟨e2, ?_⟩
        unfold midnightCheckList
        rw [hc]
        cases u
        exact h2

theorem checkTripMidnight_ok_route {routes : List Route} {stops : List Stop}
    {sts : List StopTime} {t : Trip} {u : Unit}
    (h : checkTripMidnight routes stops sts t = Except.ok u) :
    ∃ r, findRoute routes t.route_id = some r := by
  unfold checkTripMidnight at h
  split at h
  · simp at h
  · rename_i r hf
    exact ⟨r, hf⟩

theorem pipeline_ok_elim (feed : Feed) (out : PipelineOutput)
    (h : pipeline feed = Except.ok out) :
    ∃ u, midnightCheckList feed.routes feed.stops feed.stop_times feed.trips = Except.ok u ∧
    ∃ p, processTrips feed.calendars (routeIdsToRemoveShapesFrom feed.routes)
        (brokenShapeIds feed.shapes)
        (routeIdsToRemove (removeAgencyIds feed.agencies) feed.agencies feed.routes)
        (sleRouteIds (removeAgencyIds feed.agencies) feed.agencies feed.routes)
        feed.trips = Except.ok p ∧
      out.trips = p.1 ∧
      out.agencies = processAgencies (removeAgencyIds feed.agencies) feed.agencies ∧
      out.stops = feed.stops.map fixStop ∧
      out.stop_times = processStopTimes (p.1.map (fun t => t.id)) feed.stop_times ∧
      out.routes = processRoutes
          (routeIdsToRemove (removeAgencyIds feed.agencies) feed.agencies feed.routes)
          (sleRouteIds (removeAgencyIds feed.agencies) feed.agencies feed.routes)
          feed.routes ∧
      out.calendars = feed.calendars ++ p.2 := by
  unfold pipeline at h
  split at h
  · simp at h
  · rename_i u hu
    split at h
    · simp at h
    · rename_i p hp
      injection h with h
      subst h
      exact ⟨u, hu, p, hp, rfl, rfl, rfl, rfl, rfl, rfl⟩

theorem pipeline_ok_intro (feed : Feed) (u : Unit) (p : List Trip × List Calendar)
    (hm : midnightCheckList feed.routes feed.stops feed.stop_times feed.trips = Except.ok u)
    (hp : processTrips feed.calendars (routeIdsToRemoveShapesFrom feed.routes)
        (brokenShapeIds feed.shapes)
        (routeIdsToRemove (removeAgencyIds feed.agencies) feed.agencies feed.routes)
        (sleRouteIds (removeAgencyIds feed.agencies) feed.agencies feed.routes)
        feed.trips = Except.ok p) :
    pipeline feed = Except.ok
      { trips := p.1
        agencies := processAgencies (removeAgencyIds feed.agencies) feed.agencies
        stops := feed.stops.map fixStop
        stop_times := processStopTimes (p.1.map (fun t => t.id)) feed.stop_times
        routes := processRoutes
            (routeIdsToRemove (removeAgencyIds feed.agencies) feed.agencies feed.routes)
            (sleRouteIds (removeAgencyIds feed.agencies) feed.agencies feed.routes)
            feed.routes
        calendars := feed.calendars ++ p.2 } := by
  unfold pipeline
  rw [hm, hp]

/-- Claim C1: referential integrity of the emitted output — for every
input feed, every emitted StopTime references a Trip that is also
emitted, and every emitted Trip references a Calendar present in the
emitted calendar table (original or synthesized) and a Route present in
the emitted route table. -/
theorem c1_referential_integrity (feed : Feed) (out : PipelineOutput)
    (h : pipeline feed = Except.ok out) :
    (∀ st ∈ out.stop_times, ∃ t ∈ out.trips, t.id = st.trip_id) ∧
    (∀ t ∈ out.trips, (∃ cal ∈ out.calendars, cal.id = t.service_id) ∧
      (∃ r ∈ out.routes, r.id = t.route_id)) := by
  obtain ⟨u, hu, p, hp, htr, hag, hst, hsts, hro, hcal⟩ := pipeline_ok_elim feed out h
  constructor
  · intro st hstm
    rw [hsts] at hstm
    obtain ⟨hmem, hkept⟩ := processStopTimes_mem hstm
    obtain ⟨t, htk, hid⟩ := List.mem_map.mp hkept
    exact ⟨t, by rw [htr]; exact htk, hid⟩
  · intro t htm
    rw [htr] at htm
    obtain ⟨sound1, _⟩ := processTrips_sound feed.calendars
      (routeIdsToRemoveShapesFrom feed.routes) (brokenShapeIds feed.shapes)
      (routeIdsToRemove (removeAgencyIds feed.agencies) feed.agencies feed.routes)
      (sleRouteIds (removeAgencyIds feed.agencies) feed.agencies feed.routes)
      feed.trips p.1 p.2 (by rw [hp])
    obtain ⟨t0, ht0, cals, hpt, hsub⟩ := sound1 t htm
    obtain ⟨hid, hrid, hsn, hshape, hnotrem, hsvc⟩ :=
      processTrip_ok_some _ _ _ _ _ _ _ _ hpt
    constructor
    · rcases hsvc with ⟨cc, hcc, hccid⟩ | ⟨nc, hncm, hncid⟩
      · exact ⟨cc, by rw [hcal]; exact List.mem_append.mpr (Or.inl hcc), hccid⟩
      · exact ⟨nc, by rw [hcal]; exact List.mem_append.mpr (Or.inr (hsub nc hncm)), hncid⟩
    · cases u
      have hok := midnightCheckList_ok_mem feed.routes feed.stops feed.stop_times
        feed.trips hu t0 ht0
      obtain ⟨r, hfr⟩ := checkTripMidnight_ok_route hok
      obtain ⟨hrmem, hrid2⟩ := findRoute_mem hfr
      refine ⟨fixRoute (sleRouteIds (removeAgencyIds feed.agencies) feed.agencies feed.routes) r,
              ?_, ?_⟩
      · rw [hro]
        apply processRoutes_mem.mpr
        refine ⟨r, hrmem, ?_, rfl⟩
        rw [hrid2, ← hrid]
        exact hnotrem
      · rw [fixRoute_id, hrid2, hrid]

/-- Concrete instantiation of claim C1's theorem. -/
theorem c1_referential_integrity_witness :
    (∀ st ∈ exOutC1.stop_times, ∃ t ∈ exOutC1.trips, t.id = st.trip_id) ∧
    (∀ t ∈ exOutC1.trips, (∃ cal ∈ exOutC1.calendars, cal.id = t.service_id) ∧
      (∃ r ∈ exOutC1.routes, r.id = t.route_id)) :=
  c1_referential_integrity exFeedC1 exOutC1 (by rfl)

theorem routeClassify_fst_removed {remAg : List String} {ags : List Agency} {r : Route}
    {aid : String} (haid : r.agency_id = some aid) (hrem : aid ∈ remAg) :
    (routeClassify remAg ags r).1 = some r.id := by
  unfold routeClassify
  rw [haid]
  simp [hrem]

/-- Claim C2: removing an agency by name removes its routes, their trips
and those trips' stop_times, leaving no reference to the removed agency
id in the emitted agencies, routes, trips, or stop_times.  Trip ids are
assumed unique as per the GTFS data model. -/
theorem c2_agency_removal_cascade (feed : Feed) (out : PipelineOutput)
    (h : pipeline feed = Except.ok out)
    (hnd : (feed.trips.map (fun t => t.id)).Nodup)
    (a : Agency) (ha : a ∈ feed.agencies) (hname : a.name ∈ AGENCY_NAMES_TO_REMOVE)
    (aid : String) (haid : a.id = some aid) :
    (∀ ag ∈ out.agencies, ag.id ≠ some aid) ∧
    (∀ r ∈ out.routes, r.agency_id ≠ some aid) ∧
    (∀ t ∈ out.trips, ∀ r0 ∈ feed.routes, r0.id = t.route_id → r0.agency_id ≠ some aid) ∧
    (∀ st ∈ out.stop_times, ∀ t0 ∈ feed.trips, t0.id = st.trip_id →
      ∀ r0 ∈ feed.routes, r0.id = t0.route_id → r0.agency_id ≠ some aid) := by
  obtain ⟨u, hu, p, hp, htr, hag, hst, hsts, hro, hcal⟩ := pipeline_ok_elim feed out h
  have hmem : aid ∈ removeAgencyIds feed.agencies := by
    unfold removeAgencyIds
    exact List.mem_filterMap.mpr ⟨a, ha, by simp [hname, haid]⟩
  obtain ⟨sound1, _⟩ := processTrips_sound feed.calendars
    (routeIdsToRemoveShapesFrom feed.routes) (brokenShapeIds feed.shapes)
    (routeIdsToRemove (removeAgencyIds feed.agencies) feed.agencies feed.routes)
    (sleRouteIds (removeAgencyIds feed.agencies) feed.agencies feed.routes)
    feed.trips p.1 p.2 (by rw [hp])
  have hremRid : ∀ r0 ∈ feed.routes, r0.agency_id = some aid →
      r0.id ∈ routeIdsToRemove (removeAgencyIds feed.agencies) feed.agencies feed.routes := by
    intro r0 hr0 hagid
    unfold routeIdsToRemove
    exact List.mem_filterMap.mpr ⟨r0, hr0, routeClassify_fst_removed hagid hmem⟩
  have main : ∀ t ∈ out.trips, ∀ r0 ∈ feed.routes, r0.id = t.route_id →
      r0.agency_id ≠ some aid := by
    intro t htm r0 hr0 hr0id hagid
    rw [htr] at htm
    obtain ⟨t0, ht0, cals, hpt, hsub⟩ := sound1 t htm
    obtain ⟨hid, hrid, hsn, hshape, hnotrem, hsvc⟩ :=
      processTrip_ok_some _ _ _ _ _ _ _ _ hpt
    apply hnotrem
    rw [← hr0id]
    exact hremRid r0 hr0 hagid
  refine ⟨?_, ?_, main, ?_⟩
  · intro ag hagm heq
    rw [hag] at hagm
    obtain ⟨_, hcond⟩ := List.mem_filter.mp hagm
    simp only [Bool.not_eq_true'] at hcond
    unfold agencyRemoved at hcond
    rw [heq] at hcond
    simp only [decide_eq_false_iff_not] at hcond
    exact hcond hmem
  · intro r hrm heq
    rw [hro] at hrm
    obtain ⟨r0, hr0, hnotrem, hfx⟩ := processRoutes_mem.mp hrm
    rw [hfx, fixRoute_agency] at heq
    exact hnotrem (hremRid r0 hr0 heq)
  · intro st hstm t0 ht0 ht0id r0 hr0 hr0id
    rw [hsts] at hstm
    obtain ⟨_, hkept⟩ := processStopTimes_mem hstm
    obtain ⟨t, htk, hid⟩ := List.mem_map.mp hkept
    obtain ⟨t0x, ht0x, cals, hpt, _⟩ := sound1 t htk
    obtain ⟨hidx, hridx, _, _, _, _⟩ := processTrip_ok_some _ _ _ _ _ _ _ _ hpt
    have ht0eq : t0x = t0 :=
      List.inj_on_of_nodup_map hnd ht0x ht0 (by rw [← hidx, hid, ht0id])
    apply main t (by rw [htr]; exact htk) r0 hr0
    rw [hr0id, ← ht0eq, ← hridx]

/-- Concrete instantiation of claim C2's theorem. -/
theorem c2_agency_removal_cascade_witness :
    (∀ ag ∈ exOutC1.agencies, ag.id ≠ some "A2") ∧
    (∀ r ∈ exOutC1.routes, r.agency_id ≠ some "A2") ∧
    (∀ t ∈ exOutC1.trips, ∀ r0 ∈ exFeedC1.routes, r0.id = t.route_id →
      r0.agency_id ≠ some "A2") ∧
    (∀ st ∈ exOutC1.stop_times, ∀ t0 ∈ exFeedC1.trips, t0.id = st.trip_id →
      ∀ r0 ∈ exFeedC1.routes, r0.id = t0.route_id → r0.agency_id ≠ some "A2") :=
  c2_agency_removal_cascade exFeedC1 exOutC1 (by rfl) (by decide)
    { id := some "A2", name := "MARC" } (by decide) (by decide) "A2" rfl

/-- Claim C4 is false as stated: the blanket shape-removal list (route
long names California Zephyr and Floridian) clears the shape reference
of a trip whose shape is not geometrically broken. -/
theorem c4_shape_detachment_counterexample : ¬ C4_claim := by
  intro hclaim
  have h2 := (hclaim exFeedC4 exOutC4 (by rfl) (by decide) exTripC4 (by decide)
    exOutTripC4 (by decide) (by decide)).2 (by decide)
  exact absurd h2 (by decide)

/-- Claim C4, amended: every emitted trip that referenced a
geometrically broken shape has its shape reference cleared; a trip
whose route is in the blanket shape-removal list (long name California
Zephyr or Floridian) also has its shape reference cleared; every other
emitted trip keeps its shape reference unchanged.  Trip ids are assumed
unique as per the GTFS data model. -/
theorem c4_shape_detachment_amended (feed : Feed) (out : PipelineOutput)
    (h : pipeline feed = Except.ok out)
    (hnd : (feed.trips.map (fun t => t.id)).Nodup)
    (t0 : Trip) (ht0 : t0 ∈ feed.trips) (t : Trip) (ht : t ∈ out.trips)
    (hid : t.id = t0.id) :
    (referencesBrokenShape feed.shapes t0 = true → t.shape_id = none) ∧
    (t0.route_id ∈ routeIdsToRemoveShapesFrom feed.routes → t.shape_id = none) ∧
    (referencesBrokenShape feed.shapes t0 = false →
      t0.route_id ∉ routeIdsToRemoveShapesFrom feed.routes → t.shape_id = t0.shape_id) := by
  obtain ⟨u, hu, p, hp, htr, _, _, _, _, _⟩ := pipeline_ok_elim feed out h
  obtain ⟨sound1, _⟩ := processTrips_sound feed.calendars
    (routeIdsToRemoveShapesFrom feed.routes) (brokenShapeIds feed.shapes)
    (routeIdsToRemove (removeAgencyIds feed.agencies) feed.agencies feed.routes)
    (sleRouteIds (removeAgencyIds feed.agencies) feed.agencies feed.routes)
    feed.trips p.1 p.2 (by rw [hp])
  rw [htr] at ht
  obtain ⟨t0x, ht0x, cals, hpt, _⟩ := sound1 t ht
  obtain ⟨hidx, _, _, hshape, _, _⟩ := processTrip_ok_some _ _ _ _ _ _ _ _ hpt
  have heq : t0x = t0 := List.inj_on_of_nodup_map hnd ht0x ht0 (by rw [← hidx, hid])
  rw [heq] at hshape
  refine ⟨?_, ?_, ?_⟩
  · intro hbroken
    rw [hshape]
    unfold referencesBrokenShape at hbroken
    unfold shapeResult
    cases hs : t0.shape_id with
    | none =>
      simp only [hs] at hbroken
      exact absurd hbroken (by simp)
    | some sid =>
      simp only [hs, decide_eq_true_eq] at hbroken
      split
      · rfl
      · simp [hs, hbroken]
  · intro hblanket
    rw [hshape]
    unfold shapeResult
    simp [hblanket]
  · intro hnotbroken hnotblanket
    rw [hshape]
    unfold referencesBrokenShape at hnotbroken
    unfold shapeResult
    rw [if_neg hnotblanket]
    cases hs : t0.shape_id with
    | none => simp [hs]
    | some sid =>
      simp only [hs, decide_eq_false_iff_not] at hnotbroken
      simp [hs, hnotbroken]

/-- Concrete instantiation of claim C4's amended theorem. -/
theorem c4_shape_detachment_amended_witness :
    (referencesBrokenShape exFeedC4W.shapes exTripC4 = true →
      exOutTripC4.shape_id = none) ∧
    (exTripC4.route_id ∈ routeIdsToRemoveShapesFrom exFeedC4W.routes →
      exOutTripC4.shape_id = none) ∧
    (referencesBrokenShape exFeedC4W.shapes exTripC4 = false →
      exTripC4.route_id ∉ routeIdsToRemoveShapesFrom exFeedC4W.routes →
      exOutTripC4.shape_id = exTripC4.shape_id) :=
  c4_shape_detachment_amended exFeedC4W exOutC4W (by rfl) (by decide)
    exTripC4 (by decide) exOutTripC4 (by decide) (by decide)

theorem fixStop_lbo {s : Stop} (h : s.id = LBO_STOP_ID) :
    fixStop s = { s with name := some LBO_STOP_NAME, latitude := some LBO_LAT,
                         longitude := some LBO_LON } := by
  unfold fixStop
  rw [if_pos h, if_neg (by simp [h, LBO_STOP_ID, EWR_STOP_ID])]

theorem fixStop_ewr {s : Stop} (h : s.id = EWR_STOP_ID) :
    fixStop s = { s with latitude := some EWR_LAT, longitude := some EWR_LON } := by
  have hne : s.id ≠ LBO_STOP_ID := by
    rw [h]
    decide
  unfold fixStop
  rw [if_neg hne, if_pos h]

theorem fixStop_other {s : Stop} (h1 : s.id ≠ LBO_STOP_ID) (h2 : s.id ≠ EWR_STOP_ID) :
    fixStop s = s := by
  unfold fixStop
  rw [if_neg h1, if_neg h2]

/-- Claim C5 is false as stated: the EWR stop's name is not replaced
with a configured value — it passes through from the input, so no fixed
constant can describe the emitted name. -/
theorem c5_coordinate_override_counterexample : ¬ C5_claim := by
  rintro ⟨nmL, laL, loL, nmE, laE, loE, hP⟩
  have hA := ((hP exFeedC5A exOutC5A (by rfl)).2 0 (by decide) (by decide)).2.1 (by decide)
  have hB := ((hP exFeedC5B exOutC5B (by rfl)).2 0 (by decide) (by decide)).2.1 (by decide)
  have h1 : some "EWR parking garage P4" = some nmE := hA.1
  have h2 : some "Newark Airport Rail Station" = some nmE := hB.1
  rw [← h2] at h1
  exact absurd h1 (by decide)

/-- Claim C5, amended: the LBO stop's name, latitude and longitude are
replaced with the fixed configured values; the EWR stop's latitude and
longitude are replaced with the fixed configured values while its name
passes through unchanged; no other field of those two stops changes, no
other stop record is modified, and every stop in the input is emitted. -/
theorem c5_coordinate_override_amended (feed : Feed) (out : PipelineOutput)
    (h : pipeline feed = Except.ok out) :
    out.stops.length = feed.stops.length ∧
    ∀ (i : Nat) (hi : i < feed.stops.length) (hi2 : i < out.stops.length),
      ((feed.stops[i]).id = LBO_STOP_ID →
        out.stops[i] = { (feed.stops[i]) with
                           name := some LBO_STOP_NAME,
                           latitude := some LBO_LAT,
                           longitude := some LBO_LON }) ∧
      ((feed.stops[i]).id = EWR_STOP_ID →
        out.stops[i] = { (feed.stops[i]) with
                           latitude := some EWR_LAT,
                           longitude := some EWR_LON }) ∧
      ((feed.stops[i]).id ≠ LBO_STOP_ID → (feed.stops[i]).id ≠ EWR_STOP_ID →
        out.stops[i] = feed.stops[i]) := by
  obtain ⟨u, hu, p, hp, htr, hag, hst, hsts, hro, hcal⟩ := pipeline_ok_elim feed out h
  constructor
  · rw [hst, List.length_map]
  · intro i hi hi2
    have hgets : out.stops[i] = fixStop (feed.stops[i]) := by
      simp [hst]
    refine ⟨?_, ?_, ?_⟩
    · intro hlbo
      rw [hgets, fixStop_lbo hlbo]
    · intro hewr
      rw [hgets, fixStop_ewr hewr]
    · intro h1 h2
      rw [hgets, fixStop_other h1 h2]

/-- Concrete instantiation of claim C5's amended theorem. -/
theorem c5_coordinate_override_amended_witness :
    exOutC5W.stops.length = exFeedC5W.stops.length ∧
    ∀ (i : Nat) (hi : i < exFeedC5W.stops.length) (hi2 : i < exOutC5W.stops.length),
      ((exFeedC5W.stops[i]).id = LBO_STOP_ID →
        exOutC5W.stops[i] = { (exFeedC5W.stops[i]) with
                                name := some LBO_STOP_NAME,
                                latitude := some LBO_LAT,
                                longitude := some LBO_LON }) ∧
      ((exFeedC5W.stops[i]).id = EWR_STOP_ID →
        exOutC5W.stops[i] = { (exFeedC5W.stops[i]) with
                                latitude := some EWR_LAT,
                                longitude := some EWR_LON }) ∧
      ((exFeedC5W.stops[i]).id ≠ LBO_STOP_ID → (exFeedC5W.stops[i]).id ≠ EWR_STOP_ID →
        exOutC5W.stops[i] = exFeedC5W.stops[i]) :=
  c5_coordinate_override_amended exFeedC5W exOutC5W (by rfl)

/-- Claim C6 is false as stated: a non-Rail trip with zero stop_times
is processed without any error — the stop_times[0] access only happens
for trips whose route has route_type Rail. -/
theorem c6_empty_stop_times_counterexample : ¬ C6_claim := by
  intro hclaim
  obtain ⟨e, he⟩ := hclaim exFeedC6 (by decide) ⟨exTripC6, by decide, by rfl⟩
  have hok : pipeline exFeedC6 = Except.ok exOutC6 := by rfl
  rw [hok] at he
  exact absurd he (by simp)

/-- Claim C6, amended: for every feed containing a Rail trip (per the
feed's route table) owning zero stop_times, the run fails with an
error; such a trip is never silently skipped.  Trip ids are assumed
unique as per the GTFS data model. -/
theorem c6_empty_stop_times_amended (feed : Feed)
    (hnd : (feed.trips.map (fun t => t.id)).Nodup)
    (t : Trip) (ht : t ∈ feed.trips)
    (r : Route) (hr : findRoute feed.routes t.route_id = some r)
    (hrail : r.route_type = RouteType.Rail)
    (hempty : tripStopTimes feed.stop_times t.id = []) :
    ∃ e, pipeline feed = Except.error e := by
  have hcheck : checkTripMidnight feed.routes feed.stops feed.stop_times t =
      Except.error (Err.missingFirstStopTime t.id) := by
    unfold checkTripMidnight
    simp only [hr, hrail, if_true, hempty]
    rfl
  obtain ⟨e2, h2⟩ := midnightCheckList_error_of_mem feed.routes feed.stops feed.stop_times
    feed.trips t ht _ hcheck
  refine ⟨e2, ?_⟩
  unfold pipeline
  rw [h2]

/-- Concrete instantiation of claim C6's amended theorem. -/
theorem c6_empty_stop_times_amended_witness :
    ∃ e, pipeline exFeedC6R = Except.error e :=
  c6_empty_stop_times_amended exFeedC6R (by decide) exTripC6 (by decide)
    exRouteC6R (by rfl) rfl (by rfl)

/-- Claim C7: a Rail trip whose first stop's timezone parses to a zone
outside the enumerated reference set (Eastern, plus the grace-hour
zones Central, Mountain, Pacific) makes its per-trip check fail with
the unsupported-timezone error and aborts the whole run; the case is
never silently ignored or given a default grace-hour threshold. -/
theorem c7_unsupported_timezone (feed : Feed)
    (t : Trip) (ht : t ∈ feed.trips)
    (r : Route) (hr : findRoute feed.routes t.route_id = some r)
    (hrail : r.route_type = RouteType.Rail)
    (st0 : StopTime) (hst : firstStopTime (tripStopTimes feed.stop_times t.id) = some st0)
    (dep : Nat) (hdep : st0.departure_time = some dep)
    (s : Stop) (hs : findStop feed.stops st0.stop_id = some s)
    (tzs : String) (htzs : s.timezone = some tzs)
    (tz : Tz) (hparse : Tz.fromStr tzs = some tz)
    (hnotNY : tz ≠ Tz.America__New_York)
    (hnotSet : graceHours tz = none) :
    checkTripMidnight feed.routes feed.stops feed.stop_times t =
      Except.error (Err.unsupportedTimezone tz) ∧
    ∃ e, pipeline feed = Except.error e := by
  have hcheck : checkTripMidnight feed.routes feed.stops feed.stop_times t =
      Except.error (Err.unsupportedTimezone tz) := by
    unfold checkTripMidnight
    simp only [hr, hrail, if_true, hst, hdep, hs, htzs, hparse, if_neg hnotNY, hnotSet]
  refine ⟨hcheck, ?_⟩
  obtain ⟨e2, h2⟩ := midnightCheckList_error_of_mem feed.routes feed.stops feed.stop_times
    feed.trips t ht _ hcheck
  refine ⟨e2, ?_⟩
  unfold pipeline
  rw [h2]

/-- Concrete instantiation of claim C7's theorem. -/
theorem c7_unsupported_timezone_witness :
    (checkTripMidnight exFeedC7.routes exFeedC7.stops exFeedC7.stop_times exTripC7 =
      Except.error (Err.unsupportedTimezone Tz.America__Phoenix) ∧
     ∃ e, pipeline exFeedC7 = Except.error e) :=
  c7_unsupported_timezone exFeedC7 exTripC7 (by decide) exRouteC7 (by rfl) rfl
    exStC7 (by rfl) 0 rfl exStopC7 (by rfl) "America/Phoenix" rfl
    Tz.America__Phoenix (by rfl) (by decide) (by rfl)

theorem filterMap_nodup_inj {α β : Type} (f : α → Option β) :
    ∀ (l : List α), (l.filterMap f).Nodup →
      ∀ (a : α), a ∈ l → ∀ (b : α), b ∈ l → ∀ (x : β), f a = some x → f b = some x →
      a = b := by
  intro l
  induction l with
  | nil =>
    intro _ a ha
    exact absurd ha (List.not_mem_nil a)
  | cons y ys ih =>
    intro hnd a ha b hb x hfa hfb
    cases hfy : f y with
    | none =>
      rw [List.filterMap_cons_none hfy] at hnd
      rcases List.mem_cons.mp ha with rfl | ha2
      · rw [hfy] at hfa
        cases hfa
      · rcases List.mem_cons.mp hb with rfl | hb2
        · rw [hfy] at hfb
          cases hfb
        · exact ih hnd a ha2 b hb2 x hfa hfb
    | some z =>
      rw [List.filterMap_cons_some hfy] at hnd
      have hz : z ∉ ys.filterMap f := (List.nodup_cons.mp hnd).1
      have hnd2 := (List.nodup_cons.mp hnd).2
      rcases List.mem_cons.mp ha with rfl | ha2
      · rcases List.mem_cons.mp hb with rfl | hb2
        · rfl
        · exfalso
          rw [hfy] at hfa
          injection hfa with hzx
          subst hzx
          exact hz (List.mem_filterMap.mpr ⟨b, hb2, hfb⟩)
      · rcases List.mem_cons.mp hb with rfl | hb2
        · exfalso
          rw [hfy] at hfb
          injection hfb with hzx
          subst hzx
          exact hz (List.mem_filterMap.mpr ⟨a, ha2, hfa⟩)
        · exact ih hnd2 a ha2 b hb2 x hfa hfb

theorem agencyName_some {agencies : List Agency} {aid nm : String}
    (h : agencyName agencies aid = some nm) :
    ∃ a ∈ agencies, a.id = some aid ∧ a.name = nm := by
  unfold agencyName at h
  cases hf : agencies.find? (fun a => a.id == some aid) with
  | none =>
    rw [hf] at h
    cases h
  | some a =>
    rw [hf] at h
    injection h with h
    refine ⟨a, List.mem_of_find?_eq_some hf, ?_, h⟩
    have h2 := List.find?_some hf
    simpa using h2

theorem sle_not_removed {agencies : List Agency} {aid : String}
    (hndA : (agencies.filterMap (fun a => a.id)).Nodup)
    (hsle : agencyName agencies aid = some SLE_AGENCY_NAME) :
    aid ∉ removeAgencyIds agencies := by
  intro hmem
  unfold removeAgencyIds at hmem
  obtain ⟨a1, ha1, hf1⟩ := List.mem_filterMap.mp hmem
  by_cases hn : a1.name ∈ AGENCY_NAMES_TO_REMOVE
  · rw [if_pos hn] at hf1
    obtain ⟨a2, ha2, haid2, hname2⟩ := agencyName_some hsle
    have heq : a1 = a2 :=
      filterMap_nodup_inj (fun a => a.id) agencies hndA a1 ha1 a2 ha2 aid hf1 haid2
    rw [heq, hname2] at hn
    exact absurd hn (by decide)
  · rw [if_neg hn] at hf1
    cases hf1

theorem routeClassify_snd_sle {remAg : List String} {ags : List Agency} {r : Route}
    {aid : String} (haid : r.agency_id = some aid) (hnr : aid ∉ remAg)
    (hsle : agencyName ags aid = some SLE_AGENCY_NAME) :
    (routeClassify remAg ags r).2 = some r.id := by
  unfold routeClassify
  simp only [haid]
  simp [hnr, hsle]

theorem routeClassify_snd_some {remAg : List String} {ags : List Agency} {r : Route}
    {x : String} (h : (routeClassify remAg ags r).2 = some x) :
    x = r.id ∧ ∃ aid, r.agency_id = some aid ∧ aid ∉ remAg ∧
      agencyName ags aid = some SLE_AGENCY_NAME := by
  unfold routeClassify at h
  cases hag : r.agency_id with
  | none =>
    simp only [hag] at h
    cases h
  | some aid =>
    simp only [hag] at h
    by_cases hrem : aid ∈ remAg
    · rw [if_pos hrem] at h
      simp at h
    · rw [if_neg hrem] at h
      by_cases hsle : agencyName ags aid = some SLE_AGENCY_NAME
      · rw [if_pos hsle] at h
        simp only [Option.some.injEq] at h
        exact ⟨h.symm, aid, rfl, hrem, hsle⟩
      · rw [if_neg hsle] at h
        simp at h

theorem mem_sleRouteIds {remAg : List String} {ags : List Agency} {routes : List Route}
    {rid : String} :
    rid ∈ sleRouteIds remAg ags routes ↔
      ∃ r ∈ routes, (routeClassify remAg ags r).2 = some rid := by
  unfold sleRouteIds
  exact List.mem_filterMap

/-- Claim C8: every emitted route retains its id and agency_id; a route
belonging to the Shore Line East agency (by the agency-name map) is
emitted with the configured short name, long name and color overrides,
and a route not belonging to it is emitted with those three fields
unchanged.  Route ids and agency ids are assumed unique as per the GTFS
data model. -/
theorem c8_sle_rebrand (feed : Feed) (out : PipelineOutput)
    (h : pipeline feed = Except.ok out)
    (hndR : (feed.routes.map (fun r => r.id)).Nodup)
    (hndA : (feed.agencies.filterMap (fun a => a.id)).Nodup)
    (r0 : Route) (hr0 : r0 ∈ feed.routes) (r : Route) (hr : r ∈ out.routes)
    (hid : r.id = r0.id) :
    r.agency_id = r0.agency_id ∧
    ((∃ aid, r0.agency_id = some aid ∧ agencyName feed.agencies aid = some SLE_AGENCY_NAME) →
      r.short_name = some SLE_NEW_SHORT_NAME ∧ r.long_name = some SLE_NEW_LONG_NAME ∧
      r.color = some SLE_NEW_COLOR) ∧
    ((¬ ∃ aid, r0.agency_id = some aid ∧ agencyName feed.agencies aid = some SLE_AGENCY_NAME) →
      r.short_name = r0.short_name ∧ r.long_name = r0.long_name ∧ r.color = r0.color) := by
  obtain ⟨u, hu, p, hp, htr, hag, hst, hsts, hro, hcal⟩ := pipeline_ok_elim feed out h
  rw [hro] at hr
  obtain ⟨r0x, hr0x, hnotrem, hfx⟩ := processRoutes_mem.mp hr
  have hxid : r.id = r0x.id := by
    rw [hfx, fixRoute_id]
  have hx : r0x = r0 := by
    apply List.inj_on_of_nodup_map hndR hr0x hr0
    rw [← hxid, hid]
  subst hx
  refine ⟨?_, ?_, ?_⟩
  · rw [hfx, fixRoute_agency]
  · rintro ⟨aid, haid, hsle⟩
    have hnr : aid ∉ removeAgencyIds feed.agencies := sle_not_removed hndA hsle
    have hmem : r0x.id ∈ sleRouteIds (removeAgencyIds feed.agencies) feed.agencies feed.routes :=
      mem_sleRouteIds.mpr ⟨r0x, hr0x, routeClassify_snd_sle haid hnr hsle⟩
    rw [hfx]
    exact fixRoute_sle hmem
  · intro hnosle
    have hnmem : r0x.id ∉ sleRouteIds (removeAgencyIds feed.agencies) feed.agencies
        feed.routes := by
      intro hmem
      obtain ⟨r1, hr1, hcl⟩ := mem_sleRouteIds.mp hmem
      obtain ⟨hx1, aid, haid, hnr, hsle⟩ := routeClassify_snd_some hcl
      have heq1 : r1 = r0x := List.inj_on_of_nodup_map hndR hr1 hr0x hx1.symm
      subst heq1
      exact hnosle ⟨aid, haid, hsle⟩
    rw [hfx, fixRoute_not_sle hnmem]
    exact ⟨rfl, rfl, rfl⟩

/-- Concrete instantiation of claim C8's theorem. -/
theorem c8_sle_rebrand_witness :
    exRouteC8Out.agency_id = exRouteC8.agency_id ∧
    ((∃ aid, exRouteC8.agency_id = some aid ∧
        agencyName exFeedC8.agencies aid = some SLE_AGENCY_NAME) →
      exRouteC8Out.short_name = some SLE_NEW_SHORT_NAME ∧
      exRouteC8Out.long_name = some SLE_NEW_LONG_NAME ∧
      exRouteC8Out.color = some SLE_NEW_COLOR) ∧
    ((¬ ∃ aid, exRouteC8.agency_id = some aid ∧
        agencyName exFeedC8.agencies aid = some SLE_AGENCY_NAME) →
      exRouteC8Out.short_name = exRouteC8.short_name ∧
      exRouteC8Out.long_name = exRouteC8.long_name ∧
      exRouteC8Out.color = exRouteC8.color) :=
  c8_sle_rebrand exFeedC8 exOutC8 (by rfl) (by decide) (by decide)
    exRouteC8 (by decide) exRouteC8Out (by decide) rfl

/-- Claim C9: calendar synthesis is applied before the inclusion
decision in the single trip pass — for every trip whose short name has
a calendar fix, the synthesized calendar is pushed into the emitted
calendar table even when the trip itself is excluded, so the emitted
calendar table may contain synthesized calendars referenced by no
emitted trip. -/
theorem c9_calendar_push_before_exclusion (feed : Feed) (out : PipelineOutput)
    (h : pipeline feed = Except.ok out)
    (t : Trip) (ht : t ∈ feed.trips)
    (sn : String) (hsn : t.trip_short_name = some sn)
    (hfix : sn ∈ TRIP_SHORT_NAMES_WITH_CALENDAR_FIXES)
    (cal : Calendar) (hcal : findCalendar feed.calendars t.service_id = some cal)
    (nc : Calendar) (hnc : make_calendar_for_trip_short_name t.id sn cal = some nc) :
    nc ∈ out.calendars := by
  obtain ⟨u, hu, p, hp, htr, hag, hst, hsts, hro, hcalOut⟩ := pipeline_ok_elim feed out h
  obtain ⟨_, sound2⟩ := processTrips_sound feed.calendars
    (routeIdsToRemoveShapesFrom feed.routes) (brokenShapeIds feed.shapes)
    (routeIdsToRemove (removeAgencyIds feed.agencies) feed.agencies feed.routes)
    (sleRouteIds (removeAgencyIds feed.agencies) feed.agencies feed.routes)
    feed.trips p.1 p.2 (by rw [hp])
  obtain ⟨ot, cals, hpt, hsub, _⟩ := sound2 t ht
  have hmem : nc ∈ cals := processTrip_push _ _ _ _ _ _ _ _ hpt sn hsn hfix cal hcal nc hnc
  rw [hcalOut]
  exact List.mem_append.mpr (Or.inr (hsub nc hmem))

/-- Concrete instantiation of claim C9's theorem: the trip is excluded
(its route belongs to a removed agency), yet its synthesized calendar
is emitted and referenced by no emitted trip. -/
theorem c9_calendar_push_before_exclusion_witness :
    exCalC9 ∈ exOutC9.calendars ∧ ∀ t ∈ exOutC9.trips, t.service_id ≠ exCalC9.id :=
  ⟨c9_calendar_push_before_exclusion exFeedC9 exOutC9 (by rfl) exTripC9 (by decide)
    "2" rfl (by decide) calendarEx (by rfl) exCalC9 (by rfl), by decide⟩

theorem removeAgencyIds_append_noid (pre post : List Agency) (a : Agency)
    (hid : a.id = none) :
    removeAgencyIds (pre ++ a :: post) = removeAgencyIds (pre ++ post) := by
  unfold removeAgencyIds
  rw [List.filterMap_append, List.filterMap_append]
  congr 1
  simp [List.filterMap_cons, hid]

theorem agencyName_append_noid (pre post : List Agency) (a : Agency)
    (hid : a.id = none) (aid : String) :
    agencyName (pre ++ a :: post) aid = agencyName (pre ++ post) aid := by
  unfold agencyName
  rw [List.find?_append, List.find?_append]
  congr 1
  rw [List.find?_cons_of_neg]
  simp [hid]

theorem routeClassify_congr {remAg : List String} {ags1 ags2 : List Agency}
    (hname : ∀ aid, agencyName ags1 aid = agencyName ags2 aid) (r : Route) :
    routeClassify remAg ags1 r = routeClassify remAg ags2 r := by
  unfold routeClassify
  cases hag : r.agency_id with
  | none => rfl
  | some aid =>
    simp only [hag]
    rw [hname aid]

theorem routeIdsToRemove_congr (remAg : List String) (ags1 ags2 : List Agency)
    (routes : List Route)
    (hname : ∀ aid, agencyName ags1 aid = agencyName ags2 aid) :
    routeIdsToRemove remAg ags1 routes = routeIdsToRemove remAg ags2 routes := by
  unfold routeIdsToRemove
  congr 1
  funext r
  rw [routeClassify_congr hname]

theorem sleRouteIds_congr (remAg : List String) (ags1 ags2 : List Agency)
    (routes : List Route)
    (hname : ∀ aid, agencyName ags1 aid = agencyName ags2 aid) :
    sleRouteIds remAg ags1 routes = sleRouteIds remAg ags2 routes := by
  unfold sleRouteIds
  congr 1
  funext r
  rw [routeClassify_congr hname]

/-- Claim C10: an agency whose name is on the removal list but whose id
is absent is nevertheless emitted, it never enters the collected
removal-id set, and no route, trip, or stop_time is removed on its
account — deleting it from the input leaves every other emitted table
unchanged. -/
theorem c10_agency_without_id (feed : Feed) (pre post : List Agency) (a : Agency)
    (hsplit : feed.agencies = pre ++ a :: post)
    (hname : a.name ∈ AGENCY_NAMES_TO_REMOVE) (hid : a.id = none)
    (out : PipelineOutput) (h : pipeline feed = Except.ok out) :
    a ∈ out.agencies ∧
    removeAgencyIds feed.agencies = removeAgencyIds (pre ++ post) ∧
    ∃ out2, pipeline { feed with agencies := pre ++ post } = Except.ok out2 ∧
      out2.routes = out.routes ∧ out2.trips = out.trips ∧
      out2.stop_times = out.stop_times ∧ out2.stops = out.stops ∧
      out2.calendars = out.calendars := by
  obtain ⟨u, hu, p, hp, htr, hag, hst, hsts, hro, hcal⟩ := pipeline_ok_elim feed out h
  have hrem : removeAgencyIds feed.agencies = removeAgencyIds (pre ++ post) := by
    rw [hsplit]
    exact removeAgencyIds_append_noid pre post a hid
  have hnm : ∀ aid, agencyName (pre ++ post) aid = agencyName feed.agencies aid := by
    intro aid
    rw [hsplit]
    exact (agencyName_append_noid pre post a hid aid).symm
  refine ⟨?_, hrem, ?_⟩
  · rw [hag]
    unfold processAgencies
    apply List.mem_filter.mpr
    constructor
    · rw [hsplit]
      exact List.mem_append.mpr (Or.inr (List.mem_cons_self a post))
    · unfold agencyRemoved
      simp [hid]
  · have hp2 : processTrips feed.calendars (routeIdsToRemoveShapesFrom feed.routes)
        (brokenShapeIds feed.shapes)
        (routeIdsToRemove (removeAgencyIds (pre ++ post)) (pre ++ post) feed.routes)
        (sleRouteIds (removeAgencyIds (pre ++ post)) (pre ++ post) feed.routes)
        feed.trips = Except.ok p := by
      rw [← hrem, routeIdsToRemove_congr _ _ _ _ hnm, sleRouteIds_congr _ _ _ _ hnm]
      exact hp
    have hpipe2 := pipeline_ok_intro { feed with agencies := pre ++ post } u p hu hp2
    refine ⟨_, hpipe2, ?_, ?_, ?_, ?_, ?_⟩
    · show processRoutes
        (routeIdsToRemove (removeAgencyIds (pre ++ post)) (pre ++ post) feed.routes)
        (sleRouteIds (removeAgencyIds (pre ++ post)) (pre ++ post) feed.routes)
        feed.routes = out.routes
      rw [← hrem, routeIdsToRemove_congr _ _ _ _ hnm, sleRouteIds_congr _ _ _ _ hnm, hro]
    · exact htr.symm
    · exact hsts.symm
    · exact hst.symm
    · exact hcal.symm

/-- Concrete instantiation of claim C10's theorem. -/
theorem c10_agency_without_id_witness :
    exAgC10 ∈ exOutC10.agencies ∧
    removeAgencyIds exFeedC10.agencies = removeAgencyIds ([] ++ [exAgC10B]) ∧
    ∃ out2, pipeline { exFeedC10 with agencies := [] ++ [exAgC10B] } = Except.ok out2 ∧
      out2.routes = exOutC10.routes ∧ out2.trips = exOutC10.trips ∧
      out2.stop_times = exOutC10.stop_times ∧ out2.stops = exOutC10.stops ∧
      out2.calendars = exOutC10.calendars :=
  c10_agency_without_id exFeedC10 [] [exAgC10B] exAgC10 rfl (by decide) rfl
    exOutC10 (by rfl)

/-- Claim C3: for short name "2" the synthesized calendar has the
deterministic id, the Monday/Thursday/Saturday pattern, and the original
calendar's dates; for any short name outside the three-entry lookup
table the function returns None. -/
theorem c3_calendar_synthesis :
    (∀ (trip_id : String) (cal : Calendar),
      make_calendar_for_trip_short_name trip_id "2" cal =
        some { id := "catenary-2-" ++ trip_id, monday := true, tuesday := false,
               wednesday := false, thursday := true, friday := false,
               saturday := true, sunday := false,
               start_date := cal.start_date, end_date := cal.end_date }) ∧
    (∀ (trip_id sn : String) (cal : Calendar),
      sn ∉ TRIP_SHORT_NAMES_WITH_CALENDAR_FIXES →
      make_calendar_for_trip_short_name trip_id sn cal = none) := by
  constructor
  · intro trip_id cal
    rfl
  · intro trip_id sn cal hsn
    simp only [TRIP_SHORT_NAMES_WITH_CALENDAR_FIXES, List.mem_cons,
      List.mem_singleton, not_or] at hsn
    obtain ⟨h2, h343, h422⟩ := hsn
    simp [make_calendar_for_trip_short_name, h2, h343, h422]

/-- Concrete instantiation of claim C3's theorem. -/
theorem c3_calendar_synthesis_witness :
    make_calendar_for_trip_short_name "100" "2" calendarEx =
      some { id := "catenary-2-100", monday := true, tuesday := false,
             wednesday := false, thursday := true, friday := false,
             saturday := true, sunday := false,
             start_date := { year := 2024, month := 1, day := 1 },
             end_date := { year := 2024, month := 12, day := 31 } } ∧
    ("5" ∉ TRIP_SHORT_NAMES_WITH_CALENDAR_FIXES ∧
      make_calendar_for_trip_short_name "100" "5" calendarEx = none) :=
  ⟨c3_calendar_synthesis.1 "100" calendarEx,
   by decide,
   c3_calendar_synthesis.2 "100" "5" calendarEx (by decide)⟩
